import Mathlib

/-!
Shallow embedding of the TMCL stepper-motor protocol library (Rust crate
`tmcl`): the frame codec, status decoder, axis-parameter catalog with its
capability tags and byte codecs, and the synchronous command executor.
Bytes are modelled as `Nat` values (the Rust `u8` range is quantified
explicitly where it matters); Rust `Result` is `Except`; a Rust panic
(`unwrap`, `assert!`, `unimplemented!`) is modelled as `Option.none` or
is noted in the definition's doc comment.
-/

deriving instance DecidableEq for Except

namespace Tmcl

/-! ## Status taxonomy (src/src/lib.rs) -/

/-- `OkStatus` from src/src/lib.rs: the two success statuses. -/
inductive OkStatus where
  | Ok
  | LoadedIntoEEPROM
deriving DecidableEq, Repr

/-- `ErrStatus` from src/src/lib.rs: the six protocol error statuses. -/
inductive ErrStatus where
  | WrongChecksum
  | InvalidCommand
  | WrongType
  | InvalidValue
  | EEPROMLocked
  | CommandNotAvailable
deriving DecidableEq, Repr

/-- `Status` from src/src/lib.rs: `Status(Result<OkStatus, ErrStatus>)`,
matched in src/src/modules/tmcm/mod.rs as `Status::Ok(_)` / `Status::Err(e)`. -/
inductive Status where
  | ok (s : OkStatus)
  | err (e : ErrStatus)
deriving DecidableEq, Repr

/-- `NonValidErrorCode` from src/src/lib.rs: the decoding-failure marker for
an unrecognized status byte. -/
inductive NonValidErrorCode where
  | mk
deriving DecidableEq, Repr

/-- `TryFrom<u8> for Status` (src/src/lib.rs lines 136-152): the wire
byte-to-status table. -/
def Status.try_from (id : Nat) : Except NonValidErrorCode Status :=
  match id with
  | 100 => .ok (.ok .Ok)
  | 101 => .ok (.ok .LoadedIntoEEPROM)
  | 1 => .ok (.err .WrongChecksum)
  | 2 => .ok (.err .InvalidCommand)
  | 3 => .ok (.err .WrongType)
  | 4 => .ok (.err .InvalidValue)
  | 5 => .ok (.err .EEPROMLocked)
  | 6 => .ok (.err .CommandNotAvailable)
  | _ => .error .mk

/-! ## Frame codec (src/src/lib.rs) -/

/-- A 4-byte operand, indexed like the Rust array `[u8; 4]`: `byte0` is
`array[0]`, the first serialized operand byte (`VALUE3`, the most
significant wire byte), `byte3` is `array[3]` (`VALUE0`). -/
structure Operand where
  byte0 : Nat
  byte1 : Nat
  byte2 : Nat
  byte3 : Nat
deriving DecidableEq, Repr

/-- The per-instance data an `Instruction` trait object exposes to the frame
codec: the variant's fixed `INSTRUCTION_NUMBER` plus `type_number()`,
`motor_bank_number()` and the 4-byte operand (`serialize_value()` /
`operand()` in the source). -/
structure InstructionData where
  instruction_number : Nat
  type_number : Nat
  motor_bank_number : Nat
  operand : Operand
deriving DecidableEq, Repr

/-- `Command` from src/src/lib.rs: an instruction with a module address. -/
structure Command where
  module_address : Nat
  instruction : InstructionData
deriving DecidableEq, Repr

/-- `Command::new` from src/src/lib.rs. -/
def Command.new (module_address : Nat) (instruction : InstructionData) :
    Command :=
  ⟨module_address, instruction⟩

/-- Bytes 0-7 of the addressed frame:
`[MODULE_ADR, CMD_N, TYPE_N, MOTOR_N, VALUE3, VALUE2, VALUE1, VALUE0]`. -/
def Command.serializeBody (c : Command) : List Nat :=
  [c.module_address,
   c.instruction.instruction_number,
   c.instruction.type_number,
   c.instruction.motor_bank_number,
   c.instruction.operand.byte0,
   c.instruction.operand.byte1,
   c.instruction.operand.byte2,
   c.instruction.operand.byte3]

/-- Modelled from the spec: `Command::serialize` (src/src/lib.rs lines
103-105) has an `unimplemented!()` body, so the addressed 9-byte frame is
modelled from that function's own doc comment (layout
`[MODULE_ADR, CMD_N, TYPE_N, MOTOR_N, VALUE3, VALUE2, VALUE1, VALUE0,
CHECKSUM]`) and the spec's checksum rule (unsigned byte-sum mod 256 of
bytes 0-7, stored at byte 8). -/
def Command.serialize (c : Command) : List Nat :=
  c.serializeBody ++ [c.serializeBody.sum % 256]

/-- `Command::serialize_can` from src/src/lib.rs lines 112-122: the 7-byte
bus (CAN) frame, excluding module address and checksum. -/
def Command.serialize_can (c : Command) : List Nat :=
  [c.instruction.instruction_number,
   c.instruction.type_number,
   c.instruction.motor_bank_number,
   c.instruction.operand.byte0,
   c.instruction.operand.byte1,
   c.instruction.operand.byte2,
   c.instruction.operand.byte3]

/-! ## Axis-parameter catalog (src/src/modules/tmcm/axis_parameters.rs) -/

/-- The closed catalog of axis parameters defined in
src/src/modules/tmcm/axis_parameters.rs, one constructor per parameter
type. -/
inductive TmcmParameter where
  | TargetPosition
  | ActualPosition
  | TargetSpeed
  | ActualSpeed
  | MaximumPositioningSpeed
  | MaximumAcceleration
  | AbsoluteMaxCurrent
  | StandbyCurrent
  | PositionReachedFlag
  | HomeSwitchState
  | RightLimitSwitchState
  | LeftLimitSwitchState
  | RightLimitSwitchDisable
  | LeftLimitSwitchDisable
  | MaximumDeceleration
  | MicrostepResolutionParam
  | RampDivisorParam
  | PulseDivisorParam
  | ReferenceSearchModeParam
  | ReferenceSearchSpeed
  | ReferenceSwitchSpeed
  | EndSwitchDistance
  | LastReferencePosition
  | BoostCurrent
  | PowerDownDelay
deriving DecidableEq, Repr

/-- `AxisParameter::NUMBER` of each catalog entry, as declared in
src/src/modules/tmcm/axis_parameters.rs. -/
def TmcmParameter.number : TmcmParameter → Nat
  | .TargetPosition => 0
  | .ActualPosition => 1
  | .TargetSpeed => 2
  | .ActualSpeed => 3
  | .MaximumPositioningSpeed => 4
  | .MaximumAcceleration => 5
  | .AbsoluteMaxCurrent => 6
  | .StandbyCurrent => 7
  | .PositionReachedFlag => 8
  | .HomeSwitchState => 9
  | .RightLimitSwitchState => 10
  | .LeftLimitSwitchState => 11
  | .RightLimitSwitchDisable => 12
  | .LeftLimitSwitchDisable => 13
  | .MaximumDeceleration => 17
  | .MicrostepResolutionParam => 140
  | .RampDivisorParam => 153
  | .PulseDivisorParam => 154
  | .ReferenceSearchModeParam => 193
  | .ReferenceSearchSpeed => 194
  | .ReferenceSwitchSpeed => 195
  | .EndSwitchDistance => 196
  | .LastReferencePosition => 197
  | .BoostCurrent => 200
  | .PowerDownDelay => 214

/-- Which catalog entries implement `ReadableTmcmAxisParameter` in
src/src/modules/tmcm/axis_parameters.rs (every entry in the file does). -/
def TmcmParameter.readableTmcm : TmcmParameter → Bool
  | _ => true

/-- Which catalog entries implement `WriteableTmcmAxisParameter` in
src/src/modules/tmcm/axis_parameters.rs: all except the seven read-only
entries declared with `axis_param_r!` (ActualSpeed, PositionReachedFlag,
HomeSwitchState, RightLimitSwitchState, LeftLimitSwitchState,
EndSwitchDistance, LastReferencePosition), which get no
`WriteableTmcmAxisParameter` impl. -/
def TmcmParameter.writeableTmcm : TmcmParameter → Bool
  | .ActualSpeed => false
  | .PositionReachedFlag => false
  | .HomeSwitchState => false
  | .RightLimitSwitchState => false
  | .LeftLimitSwitchState => false
  | .EndSwitchDistance => false
  | .LastReferencePosition => false
  | _ => true

/-- `RampDivisor` (tuple struct `RampDivisor(u8)`, parameter 153). -/
structure RampDivisor where
  val : Nat
deriving DecidableEq, Repr

/-- `RampDivisor::new` from src/src/modules/tmcm/axis_parameters.rs lines
352-357: `assert!(divisor <= 13)` then stores the divisor; the panic of a
failed assertion is modelled as `none`. -/
def RampDivisor.new (divisor : Nat) : Option RampDivisor :=
  if divisor ≤ 13 then some ⟨divisor⟩ else none

/-- `PulseDivisor` (tuple struct `PulseDivisor(u8)`, parameter 154). -/
structure PulseDivisor where
  val : Nat
deriving DecidableEq, Repr

/-- `PulseDivisor::new` from src/src/modules/tmcm/axis_parameters.rs lines
373-377: `assert!(divisor <= 13)` then stores the divisor; the panic of a
failed assertion is modelled as `none`. -/
def PulseDivisor.new (divisor : Nat) : Option PulseDivisor :=
  if divisor ≤ 13 then some ⟨divisor⟩ else none

/-! ## Enumeration parameters (src/src/modules/tmcm/axis_parameters.rs) -/

/-- `MicrostepResolution` (parameter 140), discriminants 0..8. -/
inductive MicrostepResolution where
  | Full
  | Half
  | Micro4
  | Micro8
  | Micro16
  | Micro32
  | Micro64
  | Micro128
  | Micro256
deriving DecidableEq, Repr

/-- The Rust discriminant of each `MicrostepResolution` variant
(`Full = 0` .. `Micro256 = 8`). -/
def MicrostepResolution.toU8 : MicrostepResolution → Nat
  | .Full => 0
  | .Half => 1
  | .Micro4 => 2
  | .Micro8 => 3
  | .Micro16 => 4
  | .Micro32 => 5
  | .Micro64 => 6
  | .Micro128 => 7
  | .Micro256 => 8

/-- `MicrostepResolution::try_from_u8` (lines 293-306): byte-to-variant
table, `Err(())` outside 0..8. -/
def MicrostepResolution.try_from_u8 (v : Nat) :
    Except Unit MicrostepResolution :=
  match v with
  | 0 => .ok .Full
  | 1 => .ok .Half
  | 2 => .ok .Micro4
  | 3 => .ok .Micro8
  | 4 => .ok .Micro16
  | 5 => .ok .Micro32
  | 6 => .ok .Micro64
  | 7 => .ok .Micro128
  | 8 => .ok .Micro256
  | _ => .error ()

/-- `WriteableAxisParameter::operand` for `MicrostepResolution` (lines
334-338): `[*self as u8, 0, 0, 0]`. -/
def MicrostepResolution.operand (m : MicrostepResolution) : Operand :=
  ⟨m.toU8, 0, 0, 0⟩

/-- `Return::from_operand` for `MicrostepResolution` (lines 326-330):
`try_from_u8(array[0]).unwrap()`; the panic of `unwrap` on an `Err` is
modelled as `none`. -/
def MicrostepResolution.from_operand (array : Operand) :
    Option MicrostepResolution :=
  (MicrostepResolution.try_from_u8 array.byte0).toOption

/-- `SearchMode` (limit-switch search modes, discriminants 1..4). -/
inductive SearchMode where
  | LeftSwitch
  | RightThenLeftSwitch
  | RightThenLeftFromBothSides
  | LeftFromBothSides
deriving DecidableEq, Repr

/-- The Rust discriminant of each `SearchMode` variant
(`LeftSwitch = 1` .. `LeftFromBothSides = 4`). -/
def SearchMode.toU8 : SearchMode → Nat
  | .LeftSwitch => 1
  | .RightThenLeftSwitch => 2
  | .RightThenLeftFromBothSides => 3
  | .LeftFromBothSides => 4

/-- `HomeSearchMode` (home-switch search modes, discriminants 5..8). -/
inductive HomeSearchMode where
  | NegativeThenLeft
  | PositiveThenRight
  | Positive
  | Negative
deriving DecidableEq, Repr

/-- The Rust discriminant of each `HomeSearchMode` variant
(`NegativeThenLeft = 5` .. `Negative = 8`). -/
def HomeSearchMode.toU8 : HomeSearchMode → Nat
  | .NegativeThenLeft => 5
  | .PositiveThenRight => 6
  | .Positive => 7
  | .Negative => 8

/-- `ReferenceSearchMode` (parameter 193): a base mode in the low bits plus
additive modifier flags in the high bits. -/
inductive ReferenceSearchMode where
  | LimitSwitchSearch (search_mode : SearchMode) (swap_left_right : Bool)
  | HomeSearch (search_mode : HomeSearchMode) (invert_home_switch : Bool)
deriving DecidableEq, Repr

/-- `ReferenceSearchMode::try_from_u8` (lines 438-463): takes
`lsb = v & 0b111`; for `lsb <= 4` builds `LimitSwitchSearch` (with
`lsb = 0` returning `Err(())`) reading `swap_left_right` from bit 64; for
`lsb > 4` builds `HomeSearch` reading `invert_home_switch` from bit 128. -/
def ReferenceSearchMode.try_from_u8 (v : Nat) :
    Except Unit ReferenceSearchMode :=
  let lsb := v &&& 7
  if lsb ≤ 4 then
    match lsb with
    | 1 => .ok (.LimitSwitchSearch .LeftSwitch (v &&& 64 > 0))
    | 2 => .ok (.LimitSwitchSearch .RightThenLeftSwitch (v &&& 64 > 0))
    | 3 => .ok (.LimitSwitchSearch .RightThenLeftFromBothSides (v &&& 64 > 0))
    | 4 => .ok (.LimitSwitchSearch .LeftFromBothSides (v &&& 64 > 0))
    | _ => .error ()
  else
    match lsb with
    | 5 => .ok (.HomeSearch .NegativeThenLeft (v &&& 128 > 0))
    | 6 => .ok (.HomeSearch .PositiveThenRight (v &&& 128 > 0))
    | 7 => .ok (.HomeSearch .Positive (v &&& 128 > 0))
    | 8 => .ok (.HomeSearch .Negative (v &&& 128 > 0))
    | _ => .error ()

/-- `WriteableAxisParameter::operand` for `ReferenceSearchMode` (lines
476-490): the base-mode discriminant plus 64 for `swap_left_right` or 128
for `invert_home_switch`, in byte 0 of the operand. -/
def ReferenceSearchMode.operand (r : ReferenceSearchMode) : Operand :=
  let value :=
    match r with
    | .LimitSwitchSearch search_mode swap_left_right =>
        search_mode.toU8 + if swap_left_right then 64 else 0
    | .HomeSearch search_mode invert_home_switch =>
        search_mode.toU8 + if invert_home_switch then 128 else 0
  ⟨value, 0, 0, 0⟩

/-- `Return::from_operand` for `ReferenceSearchMode` (lines 468-472):
`try_from_u8(array[0]).unwrap()`; the panic of `unwrap` on an `Err` is
modelled as `none`. -/
def ReferenceSearchMode.from_operand (array : Operand) :
    Option ReferenceSearchMode :=
  (ReferenceSearchMode.try_from_u8 array.byte0).toOption

/-! ## Axis-parameter instructions (src/src/modules/generic/instructions.rs) -/

/-- `SAP` - Set Axis Parameter (instruction 5). -/
structure SAP where
  motor_number : Nat
  parameter_number : Nat
  operand : Operand
deriving DecidableEq, Repr

/-- `Instruction::INSTRUCTION_NUMBER` for `SAP` (line 32). -/
def SAP.INSTRUCTION_NUMBER : Nat := 5

/-- `SAP::new` (lines 23-29). -/
def SAP.new (motor_number parameter_number : Nat) (operand : Operand) :
    SAP :=
  ⟨motor_number, parameter_number, operand⟩

/-- The `Instruction` impl for `SAP` (lines 31-45): instruction number 5,
the parameter number as type number, the stored operand. -/
def SAP.toInstructionData (s : SAP) : InstructionData :=
  ⟨SAP.INSTRUCTION_NUMBER, s.parameter_number, s.motor_number, s.operand⟩

/-- `GAP` - Get Axis Parameter (instruction 6). -/
structure GAP where
  motor_number : Nat
  parameter_number : Nat
deriving DecidableEq, Repr

/-- `Instruction::INSTRUCTION_NUMBER` for `GAP` (line 70). -/
def GAP.INSTRUCTION_NUMBER : Nat := 6

/-- `GAP::new` (lines 62-67). -/
def GAP.new (motor_number parameter_number : Nat) : GAP :=
  ⟨motor_number, parameter_number⟩

/-- The `Instruction` impl for `GAP` (lines 69-83): instruction number 6,
zero operand. -/
def GAP.toInstructionData (g : GAP) : InstructionData :=
  ⟨GAP.INSTRUCTION_NUMBER, g.parameter_number, g.motor_number, ⟨0, 0, 0, 0⟩⟩

/-- `STAP` - Store Axis Parameter (instruction 7). -/
structure STAP where
  motor_number : Nat
  parameter_number : Nat
deriving DecidableEq, Repr

/-- `Instruction::INSTRUCTION_NUMBER` for `STAP` (line 106). -/
def STAP.INSTRUCTION_NUMBER : Nat := 7

/-- `STAP::new` (lines 98-103). -/
def STAP.new (motor_number parameter_number : Nat) : STAP :=
  ⟨motor_number, parameter_number⟩

/-- The `Instruction` impl for `STAP` (lines 105-119): instruction number
7, zero operand. -/
def STAP.toInstructionData (s : STAP) : InstructionData :=
  ⟨STAP.INSTRUCTION_NUMBER, s.parameter_number, s.motor_number, ⟨0, 0, 0, 0⟩⟩

/-- `RSAP` - Restore Axis Parameter (instruction 8). -/
structure RSAP where
  motor_number : Nat
  parameter_number : Nat
deriving DecidableEq, Repr

/-- `Instruction::INSTRUCTION_NUMBER` for `RSAP` (line 143). -/
def RSAP.INSTRUCTION_NUMBER : Nat := 8

/-- `RSAP::new` (lines 134-141): as written in the source, the constructor
returns a `STAP` value (`pub fn new(...) -> STAP { STAP { ... } }`), not an
`RSAP`. -/
def RSAP.new (motor_number parameter_number : Nat) : STAP :=
  ⟨motor_number, parameter_number⟩

/-- The `Instruction` impl for `RSAP` (lines 142-159): instruction number
8, zero operand. -/
def RSAP.toInstructionData (r : RSAP) : InstructionData :=
  ⟨RSAP.INSTRUCTION_NUMBER, r.parameter_number, r.motor_number, ⟨0, 0, 0, 0⟩⟩

/-! ## Capability-typed construction (src/src/modules/tmcm/instructions.rs)

Modelled from the spec where the source is incomplete: the generic
`SAP<T>`/`GAP<T>`/`STAP<T>`/`RSAP<T>` definitions referenced by
src/src/modules/tmcm/instructions.rs live in the crate-root `instructions`
module, which is absent from src/. The capability constraints themselves
are in src/: the `TmcmInstruction` impls at lines 16-19 require
`T: WriteableTmcmAxisParameter` for `SAP`/`STAP`/`RSAP` and
`T: ReadableTmcmAxisParameter` for `GAP`. Per the spec's §4.4, a
type-level constraint is reproduced as a construction-time check that
fails (returns `none`) before any serialization. -/

/-- Capability-checked construction of a Get-Axis-Parameter instruction
over a catalog entry: requires `ReadableTmcmAxisParameter`. -/
def GAP.tryNew (p : TmcmParameter) (motor_number : Nat) :
    Option InstructionData :=
  if p.readableTmcm then
    some ⟨GAP.INSTRUCTION_NUMBER, p.number, motor_number, ⟨0, 0, 0, 0⟩⟩
  else none

/-- Capability-checked construction of a Set-Axis-Parameter instruction
over a catalog entry: requires `WriteableTmcmAxisParameter`. -/
def SAP.tryNew (p : TmcmParameter) (motor_number : Nat) (value : Operand) :
    Option InstructionData :=
  if p.writeableTmcm then
    some ⟨SAP.INSTRUCTION_NUMBER, p.number, motor_number, value⟩
  else none

/-- Capability-checked construction of a Store-Axis-Parameter instruction
over a catalog entry: requires `WriteableTmcmAxisParameter`. -/
def STAP.tryNew (p : TmcmParameter) (motor_number : Nat) :
    Option InstructionData :=
  if p.writeableTmcm then
    some ⟨STAP.INSTRUCTION_NUMBER, p.number, motor_number, ⟨0, 0, 0, 0⟩⟩
  else none

/-- Capability-checked construction of a Restore-Axis-Parameter instruction
over a catalog entry: requires `WriteableTmcmAxisParameter`. -/
def RSAP.tryNew (p : TmcmParameter) (motor_number : Nat) :
    Option InstructionData :=
  if p.writeableTmcm then
    some ⟨RSAP.INSTRUCTION_NUMBER, p.number, motor_number, ⟨0, 0, 0, 0⟩⟩
  else none

/-! ## Command executor (src/src/modules/tmcm/mod.rs) -/

/-- `Reply` (src/src/lib.rs lines 47-53): status and echoed command number;
the 4-byte reply operand consumed by `write_command` is modelled from the
spec, the source struct's fields being marked `TODO` while
src/src/modules/tmcm/mod.rs already calls `reply.operand()`. -/
structure Reply where
  status : Status
  command_number : Nat
  operand : Operand
deriving DecidableEq, Repr

/-- Modelled from the spec: the `Error<E>` enum used by `write_command`
(src/src/modules/tmcm/mod.rs) is declared in the crate root, absent from
src/; its variants are those constructed there (`InterfaceUnavailable`,
`InterfaceError(e)`) plus the `ErrStatus`-carrying variant produced by
`e.into()`, per the spec's §7 taxonomy. -/
inductive TmclError (E : Type) where
  | InterfaceUnavailable
  | InterfaceError (e : E)
  | ProtocolError (e : ErrStatus)
deriving DecidableEq, Repr

/-- `TmcmModule::write_command` (src/src/modules/tmcm/mod.rs lines 51-71),
with the interface's observable behaviour passed explicitly: `borrowed`
(whether `borrow_int_mut` succeeds), the result of `transmit_command` and
the result of `receive_reply`. On an Ok-family status the reply operand is
decoded by the instruction's `Return::from_operand` (here the function
`from_operand`); on an `ErrStatus` that error is returned via `e.into()`. -/
def write_command {E R : Type} (from_operand : Operand → R)
    (borrowed : Bool) (transmit : Except E Unit)
    (receive : Except E Reply) : Except (TmclError E) R :=
  if borrowed then
    match transmit with
    | .error e => .error (.InterfaceError e)
    | .ok _ =>
      match receive with
      | .error e => .error (.InterfaceError e)
      | .ok reply =>
        match reply.status with
        | .ok _ => .ok (from_operand reply.operand)
        | .err e => .error (.ProtocolError e)
  else .error .InterfaceUnavailable

end Tmcl

/-! ## Claim theorems -/

open Tmcl

/-- C2: decoding a status byte yields `OkStatus::Ok` for 100,
`OkStatus::LoadedIntoEEPROM` for 101, the six `ErrStatus` variants
`WrongChecksum`..`CommandNotAvailable` for bytes 1..6 in order, and fails
with `NonValidErrorCode` for every other byte in [0,255]. -/
theorem C2_status_decode :
    Status.try_from 100 = .ok (.ok .Ok) ∧
    Status.try_from 101 = .ok (.ok .LoadedIntoEEPROM) ∧
    Status.try_from 1 = .ok (.err .WrongChecksum) ∧
    Status.try_from 2 = .ok (.err .InvalidCommand) ∧
    Status.try_from 3 = .ok (.err .WrongType) ∧
    Status.try_from 4 = .ok (.err .InvalidValue) ∧
    Status.try_from 5 = .ok (.err .EEPROMLocked) ∧
    Status.try_from 6 = .ok (.err .CommandNotAvailable) ∧
    (∀ b : Fin 256, b.val ∉ ([100, 101, 1, 2, 3, 4, 5, 6] : List Nat) →
      Status.try_from b.val = .error .mk) := by
  refine ⟨rfl, rfl, rfl, rfl, rfl, rfl, rfl, rfl, ?_⟩
  set_option maxRecDepth 4096 in decide

/-- Witness for C2: byte 0 is outside the table and decodes to the failure
marker. -/
theorem C2_status_decode_witness :
    Status.try_from 0 = .error .mk :=
  C2_status_decode.2.2.2.2.2.2.2.2 ⟨0, by decide⟩ (by decide)

/-- C3: serializing a command for the addressed serial medium returns a
9-byte frame `[module_address, instruction_number, type_number,
motor_bank_number, operand bytes 3..0, checksum]` whose byte 8 equals the
unsigned sum mod 256 of bytes 0 through 7. (`Command::serialize` is
modelled from its doc comment and the spec's checksum rule, its body being
`unimplemented!()` in the source.) -/
theorem C3_addressed_frame (c : Tmcl.Command) :
    c.serialize.length = 9 ∧
    c.serialize =
      [c.module_address,
       c.instruction.instruction_number,
       c.instruction.type_number,
       c.instruction.motor_bank_number,
       c.instruction.operand.byte0,
       c.instruction.operand.byte1,
       c.instruction.operand.byte2,
       c.instruction.operand.byte3,
       (c.module_address + c.instruction.instruction_number +
        c.instruction.type_number + c.instruction.motor_bank_number +
        c.instruction.operand.byte0 + c.instruction.operand.byte1 +
        c.instruction.operand.byte2 + c.instruction.operand.byte3) % 256] ∧
    c.serialize[8]? = some ((c.serialize.take 8).sum % 256) := by
  refine ⟨rfl, ?_, ?_⟩ <;>
    simp [Tmcl.Command.serialize, Tmcl.Command.serializeBody, Nat.add_assoc]

/-- C1 (code defect, evaluated at the failing input): encoding
`ReferenceSearchMode::HomeSearch { search_mode: Negative, invert_home_switch }`
produces operand byte 8 (or 136 with the invert flag), yet
`try_from_u8` rejects both bytes (`8 & 7 == 0` falls into the `Err` arm),
so `from_operand` unwrap-panics (modelled `none`) instead of returning the
original value: the decode-after-encode round trip fails for this variant. -/
theorem C1_negative_home_search_roundtrip_fails :
    ReferenceSearchMode.operand (.HomeSearch .Negative false) =
      ⟨8, 0, 0, 0⟩ ∧
    ReferenceSearchMode.try_from_u8 8 = .error () ∧
    ReferenceSearchMode.from_operand ⟨8, 0, 0, 0⟩ = none ∧
    ReferenceSearchMode.operand (.HomeSearch .Negative true) =
      ⟨136, 0, 0, 0⟩ ∧
    ReferenceSearchMode.try_from_u8 136 = .error () ∧
    ReferenceSearchMode.from_operand ⟨136, 0, 0, 0⟩ = none := by
  decide

/-- C4: serializing a command for the bus (CAN) medium returns exactly the
7 bytes `[instruction_number, type_number, motor_bank_number, operand
bytes 3..0]` — no module address, no checksum — equal to bytes 1 through 7
of the 9-byte addressed frame for the same command. -/
theorem C4_bus_frame (c : Tmcl.Command) :
    c.serialize_can.length = 7 ∧
    c.serialize_can =
      [c.instruction.instruction_number,
       c.instruction.type_number,
       c.instruction.motor_bank_number,
       c.instruction.operand.byte0,
       c.instruction.operand.byte1,
       c.instruction.operand.byte2,
       c.instruction.operand.byte3] ∧
    c.serialize_can = (c.serialize.drop 1).take 7 := by
  refine ⟨rfl, rfl, ?_⟩
  simp [Tmcl.Command.serialize, Tmcl.Command.serializeBody,
    Tmcl.Command.serialize_can]

/-- C5: a Get-Axis-Parameter instruction is constructible exactly for
catalog entries carrying `ReadableTmcmAxisParameter`, and Set-, Store- and
Restore-Axis-Parameter instructions exactly for entries carrying
`WriteableTmcmAxisParameter`; building a Set-Axis-Parameter over the
read-only `ActualSpeed` fails at construction, before any serialization. -/
theorem C5_capability_construction :
    (∀ p : TmcmParameter, ∀ m : Nat,
      (GAP.tryNew p m).isSome = p.readableTmcm) ∧
    (∀ p : TmcmParameter, ∀ m : Nat, ∀ v : Operand,
      (SAP.tryNew p m v).isSome = p.writeableTmcm) ∧
    (∀ p : TmcmParameter, ∀ m : Nat,
      (STAP.tryNew p m).isSome = p.writeableTmcm) ∧
    (∀ p : TmcmParameter, ∀ m : Nat,
      (RSAP.tryNew p m).isSome = p.writeableTmcm) ∧
    TmcmParameter.writeableTmcm .ActualSpeed = false ∧
    (∀ m : Nat, ∀ v : Operand, SAP.tryNew .ActualSpeed m v = none) := by
  refine ⟨?_, ?_, ?_, ?_, rfl, ?_⟩
  · intro p m
    cases h : p.readableTmcm <;> simp [Tmcl.GAP.tryNew, h]
  · intro p m v
    cases h : p.writeableTmcm <;> simp [Tmcl.SAP.tryNew, h]
  · intro p m
    cases h : p.writeableTmcm <;> simp [Tmcl.STAP.tryNew, h]
  · intro p m
    cases h : p.writeableTmcm <;> simp [Tmcl.RSAP.tryNew, h]
  · intro m v
    simp [Tmcl.SAP.tryNew, Tmcl.TmcmParameter.writeableTmcm]

/-- Witness for C5: constructing a Set-Axis-Parameter over the read-only
`ActualSpeed` fails, while over the writeable `TargetPosition` it
succeeds. -/
theorem C5_capability_construction_witness :
    SAP.tryNew .ActualSpeed 0 ⟨0, 0, 0, 0⟩ = none ∧
    (SAP.tryNew .TargetPosition 0 ⟨0, 0, 0, 0⟩).isSome = true :=
  ⟨C5_capability_construction.2.2.2.2.2 0 ⟨0, 0, 0, 0⟩,
   C5_capability_construction.2.1 .TargetPosition 0 ⟨0, 0, 0, 0⟩⟩

/-- C6 (code defect, evaluated at the failing input): `RSAP::new` as
written returns a `STAP` value, so the instruction built by
`RSAP::new(0, 1)` serializes with instruction number 7 (Store-Axis-
Parameter), not 8, although `RSAP`'s own `Instruction` impl declares
`INSTRUCTION_NUMBER = 8`; the zero 4-byte operand part does hold. -/
theorem C6_rsap_new_builds_store_instruction :
    RSAP.new 0 1 = STAP.new 0 1 ∧
    ((RSAP.new 0 1).toInstructionData).instruction_number = 7 ∧
    RSAP.INSTRUCTION_NUMBER = 8 ∧
    SAP.INSTRUCTION_NUMBER = 5 ∧
    (Command.new 1 ((RSAP.new 0 1).toInstructionData)).serialize_can =
      [7, 1, 0, 0, 0, 0, 0] := by
  decide

/-- C7: `write_command` decodes the reply operand with the instruction's
`Return` decoder exactly when the reply status is Ok-family; an `ErrStatus`
reply is returned verbatim as a protocol error for every operand and every
decoder (no operand decoding); transmit and receive failures surface as
`InterfaceError`, a constructor distinct from every protocol status. -/
theorem C7_write_command_dispatch :
    ∀ (E R : Type) (from_operand : Operand → R) (reply : Reply)
      (te re : E),
      (∀ s : OkStatus, reply.status = .ok s →
        write_command from_operand true (.ok () : Except E Unit)
          (.ok reply) = .ok (from_operand reply.operand)) ∧
      (∀ e : ErrStatus, reply.status = .err e →
        write_command from_operand true (.ok () : Except E Unit)
          (.ok reply) = .error (.ProtocolError e)) ∧
      write_command from_operand true (.error te) (.ok reply) =
        .error (.InterfaceError te) ∧
      write_command from_operand true (.ok ()) (.error re : Except E Reply) =
        .error (.InterfaceError re) ∧
      (∀ e : ErrStatus, (TmclError.InterfaceError te : TmclError E) ≠
        .ProtocolError e) := by
  intro E R from_operand reply te re
  refine ⟨?_, ?_, rfl, rfl, ?_⟩
  · intro s h
    simp [Tmcl.write_command, h]
  · intro e h
    simp [Tmcl.write_command, h]
  · intro e h
    exact TmclError.noConfusion h

/-- Witness for C7: a stub reply with status `Ok` and operand
`[0, 0, 3, 232]` decodes through the supplied decoder; a stub reply with
status byte 4 (`InvalidValue`) surfaces as that protocol error. -/
theorem C7_write_command_dispatch_witness :
    write_command (fun a => a.byte2 * 256 + a.byte3) true
      (.ok ()) (.ok (⟨.ok .Ok, 6, ⟨0, 0, 3, 232⟩⟩ : Reply)) =
      (.ok 1000 : Except (TmclError Unit) Nat) ∧
    write_command (fun a => a.byte2 * 256 + a.byte3) true
      (.ok ()) (.ok (⟨.err .InvalidValue, 6, ⟨0, 0, 3, 232⟩⟩ : Reply)) =
      (.error (.ProtocolError .InvalidValue) : Except (TmclError Unit) Nat) :=
  ⟨(C7_write_command_dispatch Unit Nat (fun a => a.byte2 * 256 + a.byte3)
      ⟨.ok .Ok, 6, ⟨0, 0, 3, 232⟩⟩ () ()).1 .Ok rfl,
   (C7_write_command_dispatch Unit Nat (fun a => a.byte2 * 256 + a.byte3)
      ⟨.err .InvalidValue, 6, ⟨0, 0, 3, 232⟩⟩ () ()).2.1 .InvalidValue rfl⟩

/-- Counterexample to C8: for the out-of-table operand `[9, 0, 0, 0]`,
`MicrostepResolution`'s `Return::from_operand` does not return an
invalid-enumeration error to the caller — it unwrap-panics (modelled
`none`), i.e. decoding aborts the program. -/
theorem C8_from_operand_aborts :
    MicrostepResolution.from_operand ⟨9, 0, 0, 0⟩ = none := by
  decide

/-- C8 as amended: for every first byte outside the byte-to-variant table
(any byte greater than 8 for `MicrostepResolution`; any byte whose low
three bits are 0 for `ReferenceSearchMode`), the table lookup
`try_from_u8` fails with the invalid-enumeration error `Err(())` — never a
silent default — but the `Return::from_operand` impls unwrap that result,
so decoding such an operand panics (aborts, modelled `none`) instead of
returning the error to the caller. -/
theorem C8_out_of_table_decoding :
    (∀ b : Fin 256, 8 < b.val →
      MicrostepResolution.try_from_u8 b.val = .error () ∧
      MicrostepResolution.from_operand ⟨b.val, 0, 0, 0⟩ = none) ∧
    (∀ b : Fin 256, b.val &&& 7 = 0 →
      ReferenceSearchMode.try_from_u8 b.val = .error () ∧
      ReferenceSearchMode.from_operand ⟨b.val, 0, 0, 0⟩ = none) := by
  constructor <;> set_option maxRecDepth 8192 in decide

/-- Witness for C8 (amended): byte 9 is out of table for
`MicrostepResolution` and byte 64 (low three bits 0) for
`ReferenceSearchMode`; both lookups fail and both decodes panic. -/
theorem C8_out_of_table_decoding_witness :
    (MicrostepResolution.try_from_u8 9 = .error () ∧
      MicrostepResolution.from_operand ⟨9, 0, 0, 0⟩ = none) ∧
    (ReferenceSearchMode.try_from_u8 64 = .error () ∧
      ReferenceSearchMode.from_operand ⟨64, 0, 0, 0⟩ = none) :=
  ⟨C8_out_of_table_decoding.1 ⟨9, by decide⟩ (by decide),
   C8_out_of_table_decoding.2 ⟨64, by decide⟩ (by decide)⟩

/-- C9: for every byte whose low three bits are zero,
`ReferenceSearchMode::try_from_u8` returns `Err(())` (the `lsb <= 4`
branch matches `lsb = 0` to its error arm and `8 & 7 = 0` never reaches
the home-search arm); consequently no input byte decodes to
`HomeSearch` with search mode `Negative` (documented wire mode 8). -/
theorem C9_negative_home_search_unreachable :
    (∀ v : Fin 256, v.val &&& 7 = 0 →
      ReferenceSearchMode.try_from_u8 v.val = .error ()) ∧
    (∀ v : Fin 256, ∀ invert : Bool,
      ReferenceSearchMode.try_from_u8 v.val ≠
        .ok (.HomeSearch .Negative invert)) := by
  constructor <;> set_option maxRecDepth 8192 in decide

/-- Witness for C9: the documented wire bytes 0, 8, 64, 128 and 136 all
have zero low bits and are all rejected. -/
theorem C9_negative_home_search_unreachable_witness :
    ReferenceSearchMode.try_from_u8 0 = .error () ∧
    ReferenceSearchMode.try_from_u8 8 = .error () ∧
    ReferenceSearchMode.try_from_u8 64 = .error () ∧
    ReferenceSearchMode.try_from_u8 128 = .error () ∧
    ReferenceSearchMode.try_from_u8 136 = .error () :=
  ⟨C9_negative_home_search_unreachable.1 ⟨0, by decide⟩ (by decide),
   C9_negative_home_search_unreachable.1 ⟨8, by decide⟩ (by decide),
   C9_negative_home_search_unreachable.1 ⟨64, by decide⟩ (by decide),
   C9_negative_home_search_unreachable.1 ⟨128, by decide⟩ (by decide),
   C9_negative_home_search_unreachable.1 ⟨136, by decide⟩ (by decide)⟩

/-- C10: `RampDivisor::new(d)` and `PulseDivisor::new(d)` succeed and
store `d` exactly when `d <= 13`; for every `d > 13` the `assert!` fails
(a panic, modelled `none`) before any instruction can be built over the
parameter. -/
theorem C10_divisor_constructors :
    ∀ d : Nat,
      (d ≤ 13 →
        RampDivisor.new d = some ⟨d⟩ ∧ PulseDivisor.new d = some ⟨d⟩) ∧
      (13 < d →
        RampDivisor.new d = none ∧ PulseDivisor.new d = none) := by
  intro d
  constructor
  · intro h
    simp [Tmcl.RampDivisor.new, Tmcl.PulseDivisor.new, h]
  · intro h
    have h2 : ¬ d ≤ 13 := by omega
    simp [Tmcl.RampDivisor.new, Tmcl.PulseDivisor.new, h2]

/-- Witness for C10: 13 is accepted and stored exactly, 14 panics. -/
theorem C10_divisor_constructors_witness :
    (RampDivisor.new 13 = some ⟨13⟩ ∧ PulseDivisor.new 13 = some ⟨13⟩) ∧
    (RampDivisor.new 14 = none ∧ PulseDivisor.new 14 = none) :=
  ⟨(C10_divisor_constructors 13).1 (by decide),
   (C10_divisor_constructors 14).2 (by decide)⟩
